import Mathlib

/-!
Verification of the token-sniping trading bot core: a shallow embedding of
the safety-filter pipeline, the predictive scorers (LEP and Cascade), the
execution engine, the position-exit logic and the outcome learner, with
theorems checking the specified properties against the embedded code.

Numeric values computed by the Python source with machine floats are
modelled by exact rationals; Python's `int()` conversion is modelled by
truncation toward zero.  External HTTP calls are modelled by explicit
response parameters (`none` standing for timeout / non-200).
-/

/-- Python `int()` applied to a rational: truncation toward zero. -/
def intTrunc (q : ℚ) : ℤ := if 0 ≤ q then ⌊q⌋ else ⌈q⌉

theorem intTrunc_natCast (n : ℕ) : intTrunc (n : ℚ) = n := by
  simp [intTrunc, Nat.cast_nonneg]

namespace SafetyFilters

/-- Configuration fields read by `SafetyFilters.__init__` from the config. -/
structure Config where
  safety_threshold : ℚ
  rugcheck_min_score : ℚ
  min_liquidity_usd : ℚ
  min_holders : ℚ
  max_top_holder_percent : ℚ
  max_token_age_minutes : ℚ
  check_honeypot : Bool
deriving DecidableEq

/-- The `token_data` dict: fields accessed by the safety filters.
`liquidity_usd` and `liquidity` are optional because `_check_liquidity`
tests for their presence; `holders` and `top_holder_percent` are read with
`.get(_, 0)` so a missing key behaves as `0`.  `timestamp` is in minutes;
`none` models a missing / non-datetime value (the code then uses `utcnow`). -/
structure TokenData where
  address : String
  source : String
  liquidity_usd : Option ℚ
  liquidity : Option ℚ
  holders : ℚ
  top_holder_percent : ℚ
  timestamp : Option ℚ
deriving DecidableEq

/-- Environment of a single `analyze_token` call: the wall clock (minutes)
and the outcome of the two external HTTP calls (`none` = timeout or
non-200 status, which the code turns into its fallback path). -/
structure ExternalEnv where
  now : ℚ
  rugcheckResponse : Option ℚ
  honeypotResponse : Option Bool
deriving DecidableEq

def rugcheckLowMsg (score : ℚ) : String :=
  s!"RugCheck score too low: {score}/10"

def lowLiquidityMsg (amount minLiq : ℚ) : String :=
  s!"Low liquidity: {amount} (min: {minLiq})"

def tooFewHoldersMsg (count minHolders : ℚ) : String :=
  s!"Too few holders: {count} (min: {minHolders})"

def highConcentrationMsg (pct maxPct : ℚ) : String :=
  s!"High concentration: {pct}% (max: {maxPct}%)"

def tokenTooOldMsg (age : ℤ) (maxAge : ℚ) : String :=
  s!"Token too old: {age} minutes (max: {maxAge})"

structure RugcheckResult where
  passed : Bool
  score : ℚ
  reason : Option String
deriving DecidableEq

structure LiquidityResult where
  passed : Bool
  amount : ℚ
  reason : Option String
deriving DecidableEq

structure HolderResult where
  passed : Bool
  count : ℚ
  top_holder_pct : ℚ
  reason : Option String
deriving DecidableEq

structure AgeResult where
  passed : Bool
  age_minutes : ℤ
  reason : Option String
deriving DecidableEq

structure ContractResult where
  passed : Bool
  reason : Option String
deriving DecidableEq

/-- Layer 1 (`_check_rugcheck`): for a solana/raydium token with an HTTP-200
response the fetched score is compared to the minimum; any other path falls
back to the simulated score 7. -/
def _check_rugcheck (cfg : Config) (td : TokenData) (env : ExternalEnv) :
    RugcheckResult :=
  if td.source = "solana" ∨ td.source = "raydium" then
    match env.rugcheckResponse with
    | some s =>
        { passed := decide (s ≥ cfg.rugcheck_min_score)
          score := s
          reason := if s < cfg.rugcheck_min_score then some (rugcheckLowMsg s) else none }
    | none =>
        { passed := decide ((7 : ℚ) ≥ cfg.rugcheck_min_score), score := 7, reason := none }
  else
    { passed := decide ((7 : ℚ) ≥ cfg.rugcheck_min_score), score := 7, reason := none }

/-- Layer 2 (`_check_liquidity`): USD liquidity, derived from the native
figure at a fixed rate of 150 when only `liquidity` is present. -/
def _check_liquidity (cfg : Config) (td : TokenData) : LiquidityResult :=
  let liquidity_usd :=
    if td.liquidity.isSome ∧ td.liquidity_usd.isNone then td.liquidity.getD 0 * 150
    else td.liquidity_usd.getD 0
  { passed := decide (liquidity_usd ≥ cfg.min_liquidity_usd)
    amount := liquidity_usd
    reason :=
      if liquidity_usd < cfg.min_liquidity_usd then
        some (lowLiquidityMsg liquidity_usd cfg.min_liquidity_usd)
      else none }

/-- Layer 3 (`_check_holders`): a reported value of `0` is replaced by the
simulated defaults 75 holders / 45%; both threshold violations contribute a
reason and the reasons are joined with `"; "`. -/
def _check_holders (cfg : Config) (td : TokenData) : HolderResult :=
  let holders_count := if td.holders = 0 then (75 : ℚ) else td.holders
  let top_holder_pct := if td.top_holder_percent = 0 then (45 : ℚ) else td.top_holder_percent
  let reasons :=
    (if holders_count < cfg.min_holders then
        [tooFewHoldersMsg holders_count cfg.min_holders] else []) ++
    (if top_holder_pct > cfg.max_top_holder_percent then
        [highConcentrationMsg top_holder_pct cfg.max_top_holder_percent] else [])
  { passed := decide (reasons.length = 0)
    count := holders_count
    top_holder_pct := top_holder_pct
    reason := if reasons.isEmpty then none else some (String.intercalate "; " reasons) }

/-- Layer 4 (`_check_age`): age in minutes from `now` minus the snapshot
timestamp; a missing timestamp defaults to `now` (age 0). -/
def _check_age (cfg : Config) (td : TokenData) (env : ExternalEnv) : AgeResult :=
  let timestamp := td.timestamp.getD env.now
  let age_minutes := env.now - timestamp
  { passed := decide (age_minutes ≤ cfg.max_token_age_minutes)
    age_minutes := intTrunc age_minutes
    reason :=
      if age_minutes > cfg.max_token_age_minutes then
        some (tokenTooOldMsg (intTrunc age_minutes) cfg.max_token_age_minutes)
      else none }

/-- Layer 5 (`_check_contract`): honeypot detection only applies to
bsc/pancakeswap tokens with an HTTP-200 response; every other path passes
(explicit fail-open). -/
def _check_contract (cfg : Config) (td : TokenData) (env : ExternalEnv) :
    ContractResult :=
  if ¬ cfg.check_honeypot then { passed := true, reason := none }
  else if td.source = "bsc" ∨ td.source = "pancakeswap" then
    match env.honeypotResponse with
    | some is_honeypot =>
        { passed := !is_honeypot
          reason := if is_honeypot then some "Honeypot detected" else none }
    | none => { passed := true, reason := none }
  else { passed := true, reason := none }

/-- The dict returned by `analyze_token`.  `reasons` keeps the per-layer
`reason` entries appended for failed layers (the Python code appends the
raw value, which can be `None`). -/
structure SafetyReport where
  safe : Bool
  score : ℤ
  passed_checks : ℕ
  total_checks : ℕ
  rugcheck : RugcheckResult
  liquidity : LiquidityResult
  holders : HolderResult
  age : AgeResult
  contract : ContractResult
  reasons : List (Option String)
deriving DecidableEq

/-- `SafetyFilters.analyze_token`: run the five layers, count the passes,
derive `score = int(passed/total*100)` and `safe = score >= threshold`. -/
def analyze_token (cfg : Config) (td : TokenData) (env : ExternalEnv) :
    SafetyReport :=
  let r1 := _check_rugcheck cfg td env
  let r2 := _check_liquidity cfg td
  let r3 := _check_holders cfg td
  let r4 := _check_age cfg td env
  let r5 := _check_contract cfg td env
  let total_checks : ℕ := 5
  let passed_checks := [r1.passed, r2.passed, r3.passed, r4.passed, r5.passed].countP id
  let score := intTrunc ((passed_checks : ℚ) / (total_checks : ℚ) * 100)
  { safe := decide ((score : ℚ) ≥ cfg.safety_threshold)
    score := score
    passed_checks := passed_checks
    total_checks := total_checks
    rugcheck := r1
    liquidity := r2
    holders := r3
    age := r4
    contract := r5
    reasons :=
      (if r1.passed then [] else [r1.reason]) ++
      (if r2.passed then [] else [r2.reason]) ++
      (if r3.passed then [] else [r3.reason]) ++
      (if r4.passed then [] else [r4.reason]) ++
      (if r5.passed then [] else [r5.reason]) }

theorem analyze_token_total (cfg : Config) (td : TokenData) (env : ExternalEnv) :
    (analyze_token cfg td env).total_checks = 5 := rfl

theorem analyze_token_passed_le (cfg : Config) (td : TokenData) (env : ExternalEnv) :
    (analyze_token cfg td env).passed_checks ≤ 5 := by
  have h := List.countP_le_length (l := [(_check_rugcheck cfg td env).passed,
    (_check_liquidity cfg td).passed, (_check_holders cfg td).passed,
    (_check_age cfg td env).passed, (_check_contract cfg td env).passed]) (p := id)
  simpa [analyze_token] using h

theorem score_formula (p : ℕ) :
    intTrunc ((p : ℚ) / (5 : ℚ) * 100) = round ((p : ℚ) / (5 : ℚ) * 100) := by
  have key : ((p : ℚ) / (5 : ℚ) * 100) = ((20 * p : ℕ) : ℚ) := by
    push_cast
    ring
  rw [key, intTrunc_natCast, round_natCast]

/-- C1: every `SafetyFilters.analyze_token` report has `total_checks = 5`,
`passed_checks ≤ 5`, `score = round(passed_checks / total_checks * 100)`,
and `safe` holds exactly when `score` reaches the configured threshold. -/
theorem analyze_token_report_contract (cfg : Config) (td : TokenData)
    (env : ExternalEnv) :
    (analyze_token cfg td env).total_checks = 5 ∧
    (analyze_token cfg td env).passed_checks ≤ 5 ∧
    (analyze_token cfg td env).score =
      round (((analyze_token cfg td env).passed_checks : ℚ) /
        ((analyze_token cfg td env).total_checks : ℚ) * 100) ∧
    ((analyze_token cfg td env).safe = true ↔
      ((analyze_token cfg td env).score : ℚ) ≥ cfg.safety_threshold) := by
  refine ⟨rfl, analyze_token_passed_le cfg td env, ?_, ?_⟩
  · rw [analyze_token_total]
    have h1 : (analyze_token cfg td env).score =
        intTrunc (((analyze_token cfg td env).passed_checks : ℚ) / ((5 : ℕ) : ℚ) * 100) := rfl
    rw [h1]
    simp only [Nat.cast_ofNat]
    exact score_formula _
  · have h2 : (analyze_token cfg td env).safe =
        decide (((analyze_token cfg td env).score : ℚ) ≥ cfg.safety_threshold) := rfl
    rw [h2]
    exact decide_eq_true_iff

/-- Counterexample input for C5: the snapshot reports `holders = 0`, which
`_check_holders` silently replaces by the simulated default 75. -/
def c5cfg : Config :=
  { safety_threshold := 70, rugcheck_min_score := 5, min_liquidity_usd := 5000
    min_holders := 50, max_top_holder_percent := 80, max_token_age_minutes := 30
    check_honeypot := true }

def c5token : TokenData :=
  { address := "CexToken", source := "solana", liquidity_usd := some 8000
    liquidity := none, holders := 0, top_holder_percent := 45, timestamp := none }

/-- C5 counterexample: with reported `holders = 0` and `min_holders = 50` the
layer passes (via the simulated default of 75 holders) although the
snapshot's holder count is below the minimum, so "passes iff
`holders >= minHolders` AND `topHolderPct <= maxTopHolderPct`" is false. -/
theorem check_holders_zero_default_cex :
    (_check_holders c5cfg c5token).passed = true ∧
    ¬ (c5token.holders ≥ c5cfg.min_holders) := by
  constructor
  · norm_num [_check_holders, c5cfg, c5token]
  · norm_num [c5cfg, c5token]

/-- C5 amended: after substituting the simulated defaults (75 holders when
the reported count is 0, 45% when the reported top-holder percentage is 0),
the holder layer passes iff the effective count is at least `min_holders`
and the effective percentage is at most `max_top_holder_percent`; when both
conditions are violated the failure reason is the two violation messages
joined by `"; "`. -/
theorem check_holders_spec (cfg : Config) (td : TokenData) :
    ((_check_holders cfg td).passed = true ↔
      ((if td.holders = 0 then (75 : ℚ) else td.holders) ≥ cfg.min_holders ∧
       (if td.top_holder_percent = 0 then (45 : ℚ) else td.top_holder_percent) ≤
         cfg.max_top_holder_percent)) ∧
    ((if td.holders = 0 then (75 : ℚ) else td.holders) < cfg.min_holders →
     (if td.top_holder_percent = 0 then (45 : ℚ) else td.top_holder_percent) >
         cfg.max_top_holder_percent →
      (_check_holders cfg td).reason =
        some (tooFewHoldersMsg (if td.holders = 0 then (75 : ℚ) else td.holders)
            cfg.min_holders ++ "; " ++
          highConcentrationMsg
            (if td.top_holder_percent = 0 then (45 : ℚ) else td.top_holder_percent)
            cfg.max_top_holder_percent)) := by
  constructor
  · have hp : (_check_holders cfg td).passed = true ↔
        (¬ ((if td.holders = 0 then (75 : ℚ) else td.holders) < cfg.min_holders) ∧
         ¬ ((if td.top_holder_percent = 0 then (45 : ℚ) else td.top_holder_percent) >
            cfg.max_top_holder_percent)) := by
      by_cases h1 : (if td.holders = 0 then (75 : ℚ) else td.holders) < cfg.min_holders <;>
        by_cases h2 : (if td.top_holder_percent = 0 then (45 : ℚ) else td.top_holder_percent) >
          cfg.max_top_holder_percent <;>
        simp [_check_holders, h1, h2]
    rw [hp]
    simp [not_lt, ge_iff_le]
  · intro h1 h2
    simp [_check_holders, h1, h2]
    rfl

/-- Witness input for the amended C5: both holder conditions violated. -/
def c5wcfg : Config :=
  { safety_threshold := 70, rugcheck_min_score := 5, min_liquidity_usd := 5000
    min_holders := 100, max_top_holder_percent := 40, max_token_age_minutes := 30
    check_honeypot := true }

def c5wtoken : TokenData :=
  { address := "WitnessToken", source := "solana", liquidity_usd := some 8000
    liquidity := none, holders := 10, top_holder_percent := 50, timestamp := none }

theorem check_holders_spec_witness :
    (_check_holders c5wcfg c5wtoken).reason =
      some (tooFewHoldersMsg 10 100 ++ "; " ++ highConcentrationMsg 50 40) := by
  have h := (check_holders_spec c5wcfg c5wtoken).2
    (by norm_num [c5wcfg, c5wtoken]) (by norm_num [c5wcfg, c5wtoken])
  norm_num [c5wcfg, c5wtoken] at h
  exact h

end SafetyFilters

namespace PaperTradingBot

/-- Configuration fields read by `_monitor_position`. -/
structure TradeConfig where
  take_profit : ℚ
  stop_loss : ℚ
  trailing_stop : Bool
  trailing_distance : ℚ
deriving DecidableEq

/-- The three exit reasons produced by `_monitor_position` (the formatted
percentage appended to the Python string is dropped). -/
inductive ExitReason where
  | takeProfit
  | stopLoss
  | trailingStop
deriving DecidableEq

/-- `drop_from_peak = (peak_price - current_price) / peak_price * 100`. -/
def dropFromPeak (peak_price current_price : ℚ) : ℚ :=
  (peak_price - current_price) / peak_price * 100

/-- The exit-condition ladder of one `_monitor_position` poll: take profit,
else stop loss, else (only when trailing is enabled) trailing stop. -/
def exitReason (cfg : TradeConfig) (pnl_percent peak_price current_price : ℚ) :
    Option ExitReason :=
  if pnl_percent ≥ cfg.take_profit then some .takeProfit
  else if pnl_percent ≤ -cfg.stop_loss then some .stopLoss
  else if cfg.trailing_stop then
    if dropFromPeak peak_price current_price ≥ cfg.trailing_distance then some .trailingStop
    else none
  else none

/-- Peak update of one `_monitor_position` poll:
`if current_price > peak_price: peak_price = current_price`. -/
def updatePeak (peak_price current_price : ℚ) : ℚ :=
  if current_price > peak_price then current_price else peak_price

/-- Peak price after folding a sequence of observed prices over the poll of
`_monitor_position`, starting from the entry price recorded at buy time. -/
def peakAfter (entry_price : ℚ) (prices : List ℚ) : ℚ :=
  prices.foldl updatePeak entry_price

/-- C2: exit precedence of `_monitor_position` — when the take-profit
condition holds the reason is Take Profit regardless of the other
conditions; when it fails and the stop-loss condition holds the reason is
Stop Loss; a Trailing Stop exit implies trailing is enabled, neither of the
first two conditions holds, and the drop from peak reaches the distance. -/
theorem monitor_exit_precedence (cfg : TradeConfig)
    (pnl_percent peak_price current_price : ℚ) :
    (pnl_percent ≥ cfg.take_profit →
      exitReason cfg pnl_percent peak_price current_price = some .takeProfit) ∧
    (¬ pnl_percent ≥ cfg.take_profit → pnl_percent ≤ -cfg.stop_loss →
      exitReason cfg pnl_percent peak_price current_price = some .stopLoss) ∧
    (exitReason cfg pnl_percent peak_price current_price = some .trailingStop →
      cfg.trailing_stop = true ∧ ¬ pnl_percent ≥ cfg.take_profit ∧
      ¬ pnl_percent ≤ -cfg.stop_loss ∧
      dropFromPeak peak_price current_price ≥ cfg.trailing_distance) := by
  refine ⟨?_, ?_, ?_⟩
  · intro h
    simp [exitReason, h]
  · intro h1 h2
    simp [exitReason, h1, h2]
  · intro h
    unfold exitReason at h
    split_ifs at h with h1 h2 h3 h4 <;> simp_all

def c2cfg : TradeConfig :=
  { take_profit := 10, stop_loss := 10, trailing_stop := true, trailing_distance := 5 }

theorem monitor_exit_precedence_witness :
    exitReason c2cfg 20 100 80 = some ExitReason.takeProfit :=
  (monitor_exit_precedence c2cfg 20 100 80).1 (by norm_num [c2cfg])

theorem updatePeak_eq_max (peak_price current_price : ℚ) :
    updatePeak peak_price current_price = max peak_price current_price := by
  unfold updatePeak
  split_ifs with h
  · exact (max_eq_right h.le).symm
  · exact (max_eq_left (not_lt.mp h)).symm

theorem le_foldl_updatePeak (x : ℚ) (l : List ℚ) : x ≤ l.foldl updatePeak x := by
  induction l generalizing x with
  | nil => exact le_refl x
  | cons a t ih =>
      calc x ≤ updatePeak x a := by rw [updatePeak_eq_max]; exact le_max_left x a
        _ ≤ (a :: t).foldl updatePeak x := by simpa using ih (updatePeak x a)

theorem peakAfter_le_append (entry_price : ℚ) (l extra : List ℚ) :
    peakAfter entry_price l ≤ peakAfter entry_price (l ++ extra) := by
  unfold peakAfter
  rw [List.foldl_append]
  exact le_foldl_updatePeak _ extra

/-- C3: the per-poll peak update equals `max(previous peak, current price)`,
and the peak after any later poll is at least the peak after any earlier
poll, for an arbitrary sequence of observed prices. -/
theorem monitor_peak_monotone (entry_price peak_price current_price : ℚ)
    (prices : List ℚ) (i j : ℕ) (hij : i ≤ j) :
    updatePeak peak_price current_price = max peak_price current_price ∧
    peakAfter entry_price (prices.take i) ≤ peakAfter entry_price (prices.take j) := by
  refine ⟨updatePeak_eq_max peak_price current_price, ?_⟩
  calc peakAfter entry_price (prices.take i)
      = peakAfter entry_price ((prices.take j).take i) := by
        rw [List.take_take, min_eq_left hij]
    _ ≤ peakAfter entry_price ((prices.take j).take i ++ (prices.take j).drop i) :=
        peakAfter_le_append _ _ _
    _ = peakAfter entry_price (prices.take j) := by rw [List.take_append_drop]

theorem monitor_peak_monotone_witness :
    updatePeak 1 2 = max 1 2 ∧
    peakAfter 1 ([2, 1, 3].take 1) ≤ peakAfter 1 ([2, 1, 3].take 3) :=
  monitor_peak_monotone 1 1 2 [2, 1, 3] 1 3 (by norm_num)

end PaperTradingBot

namespace ExecutionEngine

/-- The dict returned on the success paths of the buy/sell helpers. -/
structure TradeResult where
  success : Bool
  tx_hash : String
  amount_in : ℚ
  amount_out : ℚ
  price : ℚ
  timestamp : ℚ
deriving DecidableEq

/-- Configuration fields read by `ExecutionEngine.__init__`. -/
structure EngineConfig where
  network : String
  use_jito : Bool
  jito_tip_sol : ℚ
deriving DecidableEq

/-- Import-time and wallet state probed by the buy helpers: whether the
solana / web3 libraries imported, and whether the wallet yields a solana
keypair / BSC account. -/
structure EngineEnv where
  now : ℚ
  solanaLibs : Bool
  web3Libs : Bool
  solanaKeypair : Bool
  bscAccount : Bool
deriving DecidableEq

/-- `_buy_solana`: `None` without the solana libraries or a loaded keypair,
otherwise the simulated demo result (price 0.00000123, success `True`). -/
def _buy_solana (env : EngineEnv) (amount : ℚ) : Option TradeResult :=
  if ¬ env.solanaLibs then none
  else if ¬ env.solanaKeypair then none
  else some { success := true, tx_hash := "DemoTxHash123...", amount_in := amount
              amount_out := amount / (123 / 100000000), price := 123 / 100000000
              timestamp := env.now }

/-- `_sell_solana`: always the simulated demo result (no library or wallet
check on the sell path). -/
def _sell_solana (env : EngineEnv) (amount : ℚ) : Option TradeResult :=
  some { success := true, tx_hash := "DemoSellTxHash123...", amount_in := amount
         amount_out := amount * (123 / 100000000), price := 123 / 100000000
         timestamp := env.now }

/-- `_buy_bsc`: `None` without web3 or a loaded account, otherwise the
simulated demo result (price 0.00001, success `True`). -/
def _buy_bsc (env : EngineEnv) (amount : ℚ) : Option TradeResult :=
  if ¬ env.web3Libs then none
  else if ¬ env.bscAccount then none
  else some { success := true, tx_hash := "0xDemoTxHash123...", amount_in := amount
              amount_out := amount / (1 / 100000), price := 1 / 100000
              timestamp := env.now }

/-- `_sell_bsc`: always the simulated demo result. -/
def _sell_bsc (env : EngineEnv) (amount : ℚ) : Option TradeResult :=
  some { success := true, tx_hash := "0xDemoSellTxHash123...", amount_in := amount
         amount_out := amount * (1 / 100000), price := 1 / 100000
         timestamp := env.now }

/-- `ExecutionEngine.buy_token`: dispatch by network, `None` when the
network is neither solana nor bsc (and on any helper failure). -/
def buy_token (cfg : EngineConfig) (env : EngineEnv) (amount : ℚ) :
    Option TradeResult :=
  if cfg.network = "solana" then _buy_solana env amount
  else if cfg.network = "bsc" then _buy_bsc env amount
  else none

/-- `ExecutionEngine.sell_token`: dispatch by network, `None` when the
network is neither solana nor bsc. -/
def sell_token (cfg : EngineConfig) (env : EngineEnv) (amount : ℚ) :
    Option TradeResult :=
  if cfg.network = "solana" then _sell_solana env amount
  else if cfg.network = "bsc" then _sell_bsc env amount
  else none

def c4cfg : EngineConfig := { network := "ethereum", use_jito := false, jito_tip_sol := 0 }

def c4env : EngineEnv :=
  { now := 0, solanaLibs := true, web3Libs := true, solanaKeypair := true, bscAccount := true }

/-- C4 counterexample: with the configured network `"ethereum"` (unsupported)
both `buy_token` and `sell_token` return `None` instead of a structured
result with `success = false`. -/
theorem trade_calls_none_cex :
    buy_token c4cfg c4env 1 = none ∧ sell_token c4cfg c4env 1 = none := by
  constructor <;> rfl

/-- C4 amended: each call returns either a `TradeResult` with
`success = true` or `None`; failure (unsupported network, and for buys also
missing libraries or wallet) is signalled by `None`, never by a structured
result with `success = false`, and no exception escapes. -/
theorem trade_calls_structured (cfg : EngineConfig) (env : EngineEnv) (amount : ℚ) :
    (∀ r, buy_token cfg env amount = some r → r.success = true) ∧
    (∀ r, sell_token cfg env amount = some r → r.success = true) ∧
    (buy_token cfg env amount = none ↔
      (cfg.network ≠ "solana" ∧ cfg.network ≠ "bsc") ∨
      (cfg.network = "solana" ∧ (env.solanaLibs = false ∨ env.solanaKeypair = false)) ∨
      (cfg.network = "bsc" ∧ (env.web3Libs = false ∨ env.bscAccount = false))) ∧
    (sell_token cfg env amount = none ↔
      (cfg.network ≠ "solana" ∧ cfg.network ≠ "bsc")) := by
  refine ⟨?_, ?_, ?_, ?_⟩
  · intro r hr
    unfold buy_token _buy_solana _buy_bsc at hr
    split_ifs at hr <;> simp_all <;> rw [← hr]
  · intro r hr
    unfold sell_token _sell_solana _sell_bsc at hr
    split_ifs at hr <;> simp_all <;> rw [← hr]
  · unfold buy_token _buy_solana _buy_bsc
    by_cases hs : cfg.network = "solana" <;> by_cases hb : cfg.network = "bsc" <;>
      cases hl : env.solanaLibs <;> cases hk : env.solanaKeypair <;>
      cases hw : env.web3Libs <;> cases ha : env.bscAccount <;>
      simp_all
  · unfold sell_token _sell_solana _sell_bsc
    by_cases hs : cfg.network = "solana" <;> by_cases hb : cfg.network = "bsc" <;> simp_all

def c4wcfg : EngineConfig := { network := "solana", use_jito := true, jito_tip_sol := 1/1000 }

def c4wenv : EngineEnv :=
  { now := 0, solanaLibs := true, web3Libs := true, solanaKeypair := false, bscAccount := true }

theorem trade_calls_structured_witness :
    buy_token c4wcfg c4wenv 1 = none :=
  (trade_calls_structured c4wcfg c4wenv 1).2.2.1.mpr
    (Or.inr (Or.inl ⟨rfl, Or.inr rfl⟩))

/-- The Jito tip-account pool, as listed on the class. -/
def JITO_TIP_ACCOUNTS : List String :=
  [ "96gYZGLnJYVFmbjzopPSU6QiEV5fGqZNyN9nmNhvrZU5"
  , "HFqU5x63VTqvQss8hp11i4wVV8bD44PvwucfZ2bU7gRe"
  , "Cw8CFyM9FkoMi7K7Crf6HNQqf4uEMzpKw6QNghXLvLkY"
  , "ADaUMid9yfUytqMBgopwjb2DTLSokTSzL1zt6iGPaS49"
  , "DfXygSm4jCyNCybVYYK6DwvWqjKee8pbDmJGcLWNDXjh"
  , "ADuUkR4vqLUMWXxW9gh6D6L8pMSawimctcNZ5pGwDcEt"
  , "DttWaMuVvTiduZRnguLF7jNxTgiMBZ1hyAumKUiL2KRL"
  , "3AVi9Tg9Uo68tJfuvoKvqKNWKkC5wPdSSdeBnizKZ6jT" ]

/-- `_get_jito_tip_account`: return the account at the stored index and
advance the index by one modulo the pool size. -/
def _get_jito_tip_account (jito_tip_account_index : ℕ) : String × ℕ :=
  ( JITO_TIP_ACCOUNTS.getD jito_tip_account_index ""
  , (jito_tip_account_index + 1) % JITO_TIP_ACCOUNTS.length )

/-- The stored `jito_tip_account_index` after `k` calls, starting from the
initial value 0 set in `__init__`. -/
def tipIndexAfter : ℕ → ℕ
  | 0 => 0
  | k + 1 => (_get_jito_tip_account (tipIndexAfter k)).2

/-- The account returned by the `k`-th call (`k = 0, 1, 2, ...`). -/
def tipAccountAtCall (k : ℕ) : String :=
  (_get_jito_tip_account (tipIndexAfter k)).1

theorem tipIndexAfter_eq (k : ℕ) : tipIndexAfter k = k % 8 := by
  induction k with
  | zero => rfl
  | succ n ih =>
      show (_get_jito_tip_account (tipIndexAfter n)).2 = (n + 1) % 8
      rw [ih]
      show (n % 8 + 1) % JITO_TIP_ACCOUNTS.length = (n + 1) % 8
      have hlen : JITO_TIP_ACCOUNTS.length = 8 := rfl
      rw [hlen]
      omega

/-- How many of the first `N` calls used pool entry `j`. -/
def tipTouchCount (N j : ℕ) : ℕ :=
  ((List.range N).filter fun k => tipIndexAfter k = j).length

theorem tipTouchCount_eq (N j : ℕ) (hj : j < 8) :
    tipTouchCount N j = N / 8 + if j < N % 8 then 1 else 0 := by
  induction N with
  | zero => simp [tipTouchCount]
  | succ n ih =>
      have hstep : tipTouchCount (n + 1) j =
          tipTouchCount n j + if n % 8 = j then 1 else 0 := by
        unfold tipTouchCount
        rw [List.range_succ, List.filter_append, List.length_append]
        simp only [tipIndexAfter_eq]
        by_cases hnj : n % 8 = j <;> simp [hnj]
      rw [hstep, ih]
      split_ifs at * <;> omega

/-- C6: starting from index 0, the `k`-th rotation call returns
`JITO_TIP_ACCOUNTS[k mod 8]`, the stored index stays below 8, and over any
`N` sequential calls each pool entry `j` is used between `N/8` and
`N/8 + 1` times. -/
theorem jito_rotation (k N j : ℕ) (hj : j < 8) :
    tipAccountAtCall k = JITO_TIP_ACCOUNTS.getD (k % 8) "" ∧
    tipIndexAfter k < 8 ∧
    N / 8 ≤ tipTouchCount N j ∧ tipTouchCount N j ≤ N / 8 + 1 := by
  refine ⟨?_, ?_, ?_, ?_⟩
  · unfold tipAccountAtCall _get_jito_tip_account
    rw [tipIndexAfter_eq]
  · rw [tipIndexAfter_eq]
    exact Nat.mod_lt _ (by norm_num)
  · rw [tipTouchCount_eq N j hj]
    split_ifs <;> omega
  · rw [tipTouchCount_eq N j hj]
    split_ifs <;> omega

theorem jito_rotation_witness :
    tipAccountAtCall 11 = JITO_TIP_ACCOUNTS.getD (11 % 8) "" ∧
    tipIndexAfter 11 < 8 ∧
    20 / 8 ≤ tipTouchCount 20 5 ∧ tipTouchCount 20 5 ≤ 20 / 8 + 1 :=
  jito_rotation 11 20 5 (by norm_num)

end ExecutionEngine

namespace LEPPredictor

/-- Configuration fields read by `LEPPredictor.__init__`. -/
structure LEPConfig where
  lep_enabled : Bool
  lep_min_confidence : ℚ
  lep_use_heuristics : Bool
deriving DecidableEq

/-- One entry of `historical_data`; only `liquidity_usd` is read. -/
structure HistEntry where
  liquidity_usd : ℚ
deriving DecidableEq

structure LiquidityVelocitySignal where
  score : ℚ
  liquidity : ℚ
  velocity : ℚ
  optimal_range : Bool
deriving DecidableEq

structure HolderAccumulationSignal where
  score : ℚ
  holders : ℚ
  top_holder_pct : ℚ
  optimal : Bool
deriving DecidableEq

structure AgeTimingSignal where
  score : ℚ
  age_minutes : ℚ
  in_sweet_spot : Bool
deriving DecidableEq

structure VolumeSignal where
  score : ℚ
  strong_volume : Bool
deriving DecidableEq

structure DevActivitySignal where
  score : ℚ
  active : Bool
deriving DecidableEq

/-- The `signals` dict built by `predict_pump_timing`. -/
structure Signals where
  liquidity_velocity : LiquidityVelocitySignal
  holder_accumulation : HolderAccumulationSignal
  age_timing : AgeTimingSignal
  volume_momentum : VolumeSignal
  dev_activity : DevActivitySignal
deriving DecidableEq

/-- `_analyze_liquidity_velocity`: 0.5 for the 5000-50000 USD band plus 0.5
for a growth velocity above 1000 $/min (only computable with at least two
historical samples; `time_diff` is the fixed 1 minute of the source). -/
def _analyze_liquidity_velocity (td : SafetyFilters.TokenData)
    (historical_data : Option (List HistEntry)) : LiquidityVelocitySignal :=
  let current_liquidity := td.liquidity_usd.getD 0
  let optimal_range := 5000 ≤ current_liquidity ∧ current_liquidity ≤ 50000
  let velocity : ℚ :=
    match historical_data with
    | some h =>
        if 2 ≤ h.length then (td.liquidity_usd.getD 0 - (h.headD ⟨0⟩).liquidity_usd) / 1
        else 0
    | none => 0
  let strong_velocity := velocity > 1000
  { score := (if optimal_range then (1/2 : ℚ) else 0) +
      (if strong_velocity then (1/2 : ℚ) else 0)
    liquidity := current_liquidity
    velocity := velocity
    optimal_range := decide optimal_range }

/-- `_analyze_holder_patterns`: 0.5 for 50-200 holders plus 0.5 for a top
holder between 30% and 60%. -/
def _analyze_holder_patterns (td : SafetyFilters.TokenData) : HolderAccumulationSignal :=
  let holders := td.holders
  let top_holder_pct := td.top_holder_percent
  let optimal_holder_count := 50 ≤ holders ∧ holders ≤ 200
  let healthy_distribution := 30 ≤ top_holder_pct ∧ top_holder_pct ≤ 60
  { score := (if optimal_holder_count then (1/2 : ℚ) else 0) +
      (if healthy_distribution then (1/2 : ℚ) else 0)
    holders := holders
    top_holder_pct := top_holder_pct
    optimal := decide optimal_holder_count && decide healthy_distribution }

/-- `_analyze_age_timing`: full score 1.0 in the 2-5 minute sweet spot,
0.3 otherwise; a missing timestamp defaults to `now` (age 0). -/
def _analyze_age_timing (td : SafetyFilters.TokenData) (now : ℚ) : AgeTimingSignal :=
  let timestamp := td.timestamp.getD now
  let age_minutes := now - timestamp
  let in_sweet_spot := 2 ≤ age_minutes ∧ age_minutes ≤ 5
  { score := if in_sweet_spot then 1 else 3/10
    age_minutes := age_minutes
    in_sweet_spot := decide in_sweet_spot }

/-- `_analyze_volume`: liquidity above 10000 as a volume proxy. -/
def _analyze_volume (td : SafetyFilters.TokenData) : VolumeSignal :=
  let liquidity := td.liquidity_usd.getD 0
  let strong_volume := liquidity > 10000
  { score := if strong_volume then 4/5 else 2/5
    strong_volume := decide strong_volume }

/-- `_analyze_dev_activity`: placeholder neutral score. -/
def _analyze_dev_activity (_td : SafetyFilters.TokenData) : DevActivitySignal :=
  { score := 1/2, active := true }

inductive LEPSignalKey where
  | liquidity_velocity
  | holder_accumulation
  | age_timing
  | volume_momentum
  | dev_activity
deriving DecidableEq

/-- The weight dict of `_calculate_confidence`, in iteration order. -/
def lepWeights : List (LEPSignalKey × ℚ) :=
  [ (.liquidity_velocity, 1/4), (.holder_accumulation, 1/4), (.age_timing, 1/5)
  , (.volume_momentum, 3/20), (.dev_activity, 3/20) ]

def signalScore (s : Signals) : LEPSignalKey → ℚ
  | .liquidity_velocity => s.liquidity_velocity.score
  | .holder_accumulation => s.holder_accumulation.score
  | .age_timing => s.age_timing.score
  | .volume_momentum => s.volume_momentum.score
  | .dev_activity => s.dev_activity.score

/-- `_calculate_confidence`: the weighted sum accumulated in dict order,
clamped to [0, 1] by `min(max(confidence, 0.0), 1.0)`. -/
def _calculate_confidence (s : Signals) : ℚ :=
  min (max (lepWeights.foldl (fun acc kw => acc + signalScore s kw.1 * kw.2) 0) 0) 1

/-- `_predict_hours`: base 12h, 6h in the sweet spot, capped at 8h for a
velocity above 2000, and forced to 24h when confidence is below 0.5 —
the source applies the adjustments in exactly this order. -/
def _predict_hours (s : Signals) (confidence : ℚ) : ℚ :=
  let hours : ℚ := 12
  let hours := if s.age_timing.in_sweet_spot then (6 : ℚ) else hours
  let hours := if s.liquidity_velocity.velocity > 2000 then min hours 8 else hours
  let hours := if confidence < 1/2 then (24 : ℚ) else hours
  hours

/-- Recommendation tiers of `_generate_recommendation` (the formatted hours
appended to the Python string are dropped), plus the fixed strings of the
disabled and error paths of `predict_pump_timing`. -/
inductive Recommendation where
  | strongBuy
  | buy
  | consider
  | skip
  | disabled
deriving DecidableEq

def _generate_recommendation (confidence : ℚ) : Recommendation :=
  if confidence ≥ 4/5 then .strongBuy
  else if confidence ≥ 3/5 then .buy
  else if confidence ≥ 2/5 then .consider
  else .skip

/-- The dict returned by `predict_pump_timing`; `signals = none` models the
empty dict of the disabled path. -/
structure LEPResult where
  confidence : ℚ
  predicted_hours : ℚ
  signals : Option Signals
  recommendation : Recommendation
deriving DecidableEq

/-- `LEPPredictor.predict_pump_timing`. -/
def predict_pump_timing (cfg : LEPConfig) (td : SafetyFilters.TokenData)
    (historical_data : Option (List HistEntry)) (now : ℚ) : LEPResult :=
  if ¬ cfg.lep_enabled then
    { confidence := 0, predicted_hours := 0, signals := none, recommendation := .disabled }
  else
    let signals : Signals :=
      { liquidity_velocity := _analyze_liquidity_velocity td historical_data
        holder_accumulation := _analyze_holder_patterns td
        age_timing := _analyze_age_timing td now
        volume_momentum := _analyze_volume td
        dev_activity := _analyze_dev_activity td }
    let confidence := _calculate_confidence signals
    let predicted_hours := _predict_hours signals confidence
    { confidence := confidence
      predicted_hours := predicted_hours
      signals := some signals
      recommendation := _generate_recommendation confidence }

/-- The C8 scenario snapshot: liquidity 15000 USD, 85 holders, top holder
45%, created at minute 0 and observed at minute 3, no history. -/
def c8token : SafetyFilters.TokenData :=
  { address := "TestToken123...", source := "raydium", liquidity_usd := some 15000
    liquidity := none, holders := 85, top_holder_percent := 45, timestamp := some 0 }

def c8cfg : LEPConfig :=
  { lep_enabled := true, lep_min_confidence := 7/10, lep_use_heuristics := true }

/-- C8: on the scenario snapshot (liquidity 15000, age 3 min, 85 holders,
top holder 45%, no history) the enabled LEP predictor returns confidence
0.77 = 0.5*0.25 + 1.0*0.25 + 1.0*0.20 + 0.8*0.15 + 0.5*0.15, predicted
hours 6.0, and the moderate-confidence buy tier (0.6 <= 0.77 < 0.8). -/
theorem lep_scenario :
    (predict_pump_timing c8cfg c8token none 3).confidence = 77/100 ∧
    (predict_pump_timing c8cfg c8token none 3).predicted_hours = 6 ∧
    (predict_pump_timing c8cfg c8token none 3).recommendation = .buy ∧
    (3/5 : ℚ) ≤ 77/100 ∧ (77/100 : ℚ) < 4/5 := by
  norm_num [predict_pump_timing, _analyze_liquidity_velocity, _analyze_holder_patterns,
    _analyze_age_timing, _analyze_volume, _analyze_dev_activity, _calculate_confidence,
    _predict_hours, _generate_recommendation, lepWeights, signalScore, c8cfg, c8token,
    List.foldl, min_def, max_def]

end LEPPredictor

namespace CascadeSentinel

/-- Configuration fields read by `CascadeSentinel.__init__`. -/
structure CascadeConfig where
  cascade_enabled : Bool
  cascade_min_virality : ℚ
deriving DecidableEq

/-- The `social_data` argument: its content is never inspected, only its
presence (`None` versus a dict). -/
def SocialData : Type := Unit

structure NetworkVelocitySignal where
  score : ℚ
  holders : ℚ
  growth_rate : ℚ
  strong_growth : Bool
deriving DecidableEq

structure HolderDiversitySignal where
  score : ℚ
  holders : ℚ
  top_holder_pct : ℚ
  diverse : Bool
deriving DecidableEq

structure EarlyAdopterSignal where
  score : ℚ
  quality : String
deriving DecidableEq

structure LiquidityCascadeSignal where
  score : ℚ
  liquidity : ℚ
  liq_per_minute : ℚ
  strong_cascade : Bool
deriving DecidableEq

structure SocialMomentumSignal where
  score : ℚ
  momentum : String
deriving DecidableEq

structure CascadeSignals where
  network_velocity : NetworkVelocitySignal
  holder_diversity : HolderDiversitySignal
  early_adopter_quality : EarlyAdopterSignal
  liquidity_cascade : LiquidityCascadeSignal
  social_momentum : SocialMomentumSignal
deriving DecidableEq

/-- `_get_age_minutes`: minutes since the snapshot timestamp; a missing
timestamp defaults to `now` (age 0). -/
def _get_age_minutes (td : SafetyFilters.TokenData) (now : ℚ) : ℚ :=
  now - td.timestamp.getD now

/-- `_analyze_network_growth`: 0.8 above 10 holders/minute, else 0.4. -/
def _analyze_network_growth (td : SafetyFilters.TokenData) (now : ℚ) :
    NetworkVelocitySignal :=
  let holders := td.holders
  let age_minutes := _get_age_minutes td now
  let growth_rate := if age_minutes > 0 then holders / age_minutes else 0
  let strong_growth := growth_rate > 10
  { score := if strong_growth then 4/5 else 2/5
    holders := holders
    growth_rate := growth_rate
    strong_growth := decide strong_growth }

/-- `_analyze_holder_diversity`: 0.5 for at least 100 holders plus 0.5 for
a top holder below 50%. -/
def _analyze_holder_diversity (td : SafetyFilters.TokenData) : HolderDiversitySignal :=
  let holders := td.holders
  let top_holder_pct := td.top_holder_percent
  let good_holder_count := holders ≥ 100
  let decentralized := top_holder_pct < 50
  { score := (if good_holder_count then (1/2 : ℚ) else 0) +
      (if decentralized then (1/2 : ℚ) else 0)
    holders := holders
    top_holder_pct := top_holder_pct
    diverse := decide good_holder_count && decide decentralized }

/-- `_analyze_early_adopters`: 0.7 for 50-150 holders, else 0.4. -/
def _analyze_early_adopters (td : SafetyFilters.TokenData) : EarlyAdopterSignal :=
  let holders := td.holders
  let optimal_early_adopters := 50 ≤ holders ∧ holders ≤ 150
  { score := if optimal_early_adopters then 7/10 else 2/5
    quality := if optimal_early_adopters then "high" else "medium" }

/-- `_analyze_liquidity_cascade`: 0.8 above 1000 $/minute, else 0.4. -/
def _analyze_liquidity_cascade (td : SafetyFilters.TokenData) (now : ℚ) :
    LiquidityCascadeSignal :=
  let liquidity := td.liquidity_usd.getD 0
  let age_minutes := _get_age_minutes td now
  let liq_per_minute := if age_minutes > 0 then liquidity / age_minutes else 0
  let strong_cascade := liq_per_minute > 1000
  { score := if strong_cascade then 4/5 else 2/5
    liquidity := liquidity
    liq_per_minute := liq_per_minute
    strong_cascade := decide strong_cascade }

/-- `_analyze_social_momentum`: neutral 0.5 whether or not data exists. -/
def _analyze_social_momentum (social_data : Option SocialData) : SocialMomentumSignal :=
  match social_data with
  | none => { score := 1/2, momentum := "unknown" }
  | some _ => { score := 1/2, momentum := "neutral" }

inductive CascadeKey where
  | network_velocity
  | holder_diversity
  | early_adopter_quality
  | liquidity_cascade
  | social_momentum
deriving DecidableEq

/-- The weight dict of `_calculate_virality_score`, in iteration order. -/
def cascadeWeights : List (CascadeKey × ℚ) :=
  [ (.network_velocity, 1/4), (.holder_diversity, 1/5), (.early_adopter_quality, 1/5)
  , (.liquidity_cascade, 1/4), (.social_momentum, 1/10) ]

def cascadeSignalScore (s : CascadeSignals) : CascadeKey → ℚ
  | .network_velocity => s.network_velocity.score
  | .holder_diversity => s.holder_diversity.score
  | .early_adopter_quality => s.early_adopter_quality.score
  | .liquidity_cascade => s.liquidity_cascade.score
  | .social_momentum => s.social_momentum.score

/-- `_calculate_virality_score`: weighted sum accumulated in dict order,
converted to 0-100 by `int(score * 100)`. -/
def _calculate_virality_score (s : CascadeSignals) : ℤ :=
  intTrunc ((cascadeWeights.foldl (fun acc kw => acc + cascadeSignalScore s kw.1 * kw.2) 0) * 100)

/-- Recommendation tiers of the cascade `_generate_recommendation`, plus
the fixed string of the disabled path of `predict_virality`. -/
inductive CascadeRec where
  | viralAlert
  | strongViral
  | moderateViral
  | lowViral
  | noViral
  | disabled
deriving DecidableEq

def _generate_recommendation (virality_score : ℤ) : CascadeRec :=
  if virality_score ≥ 90 then .viralAlert
  else if virality_score ≥ 75 then .strongViral
  else if virality_score ≥ 60 then .moderateViral
  else if virality_score ≥ 40 then .lowViral
  else .noViral

/-- The dict returned by `predict_virality`; `cascade_signals = none`
models the empty dict of the disabled path. -/
structure ViralityResult where
  virality_score : ℤ
  cascade_signals : Option CascadeSignals
  recommendation : CascadeRec
  viral_probability : ℚ
deriving DecidableEq

/-- `CascadeSentinel.predict_virality`. -/
def predict_virality (cfg : CascadeConfig) (td : SafetyFilters.TokenData)
    (social_data : Option SocialData) (now : ℚ) : ViralityResult :=
  if ¬ cfg.cascade_enabled then
    { virality_score := 0, cascade_signals := none, recommendation := .disabled
      viral_probability := 0 }
  else
    let signals : CascadeSignals :=
      { network_velocity := _analyze_network_growth td now
        holder_diversity := _analyze_holder_diversity td
        early_adopter_quality := _analyze_early_adopters td
        liquidity_cascade := _analyze_liquidity_cascade td now
        social_momentum := _analyze_social_momentum social_data }
    let virality_score := _calculate_virality_score signals
    { virality_score := virality_score
      cascade_signals := some signals
      recommendation := _generate_recommendation virality_score
      viral_probability := (virality_score : ℚ) / 100 }

theorem network_score_bounds (td : SafetyFilters.TokenData) (now : ℚ) :
    0 ≤ (_analyze_network_growth td now).score ∧
    (_analyze_network_growth td now).score ≤ 4/5 := by
  simp only [_analyze_network_growth]
  split_ifs <;> norm_num

theorem diversity_score_bounds (td : SafetyFilters.TokenData) :
    0 ≤ (_analyze_holder_diversity td).score ∧
    (_analyze_holder_diversity td).score ≤ 1 := by
  simp only [_analyze_holder_diversity]
  split_ifs <;> norm_num

theorem early_score_bounds (td : SafetyFilters.TokenData) :
    0 ≤ (_analyze_early_adopters td).score ∧
    (_analyze_early_adopters td).score ≤ 7/10 := by
  simp only [_analyze_early_adopters]
  split_ifs <;> norm_num

theorem cascade_score_bounds (td : SafetyFilters.TokenData) (now : ℚ) :
    0 ≤ (_analyze_liquidity_cascade td now).score ∧
    (_analyze_liquidity_cascade td now).score ≤ 4/5 := by
  simp only [_analyze_liquidity_cascade]
  split_ifs <;> norm_num

theorem social_score_eq (social_data : Option SocialData) :
    (_analyze_social_momentum social_data).score = 1/2 := by
  cases social_data <;> rfl

theorem calculate_virality_bounds (s : CascadeSignals)
    (hn : 0 ≤ s.network_velocity.score ∧ s.network_velocity.score ≤ 4/5)
    (hd : 0 ≤ s.holder_diversity.score ∧ s.holder_diversity.score ≤ 1)
    (he : 0 ≤ s.early_adopter_quality.score ∧ s.early_adopter_quality.score ≤ 7/10)
    (hc : 0 ≤ s.liquidity_cascade.score ∧ s.liquidity_cascade.score ≤ 4/5)
    (hs : s.social_momentum.score = 1/2) :
    0 ≤ _calculate_virality_score s ∧ _calculate_virality_score s ≤ 79 := by
  have hfold : _calculate_virality_score s =
      intTrunc ((s.network_velocity.score * (1/4) + s.holder_diversity.score * (1/5) +
        s.early_adopter_quality.score * (1/5) + s.liquidity_cascade.score * (1/4) +
        s.social_momentum.score * (1/10)) * 100) := by
    unfold _calculate_virality_score
    congr 1
    simp only [cascadeWeights, List.foldl, cascadeSignalScore]
    ring
  have hq0 : 0 ≤ (s.network_velocity.score * (1/4) + s.holder_diversity.score * (1/5) +
      s.early_adopter_quality.score * (1/5) + s.liquidity_cascade.score * (1/4) +
      s.social_momentum.score * (1/10)) * 100 := by
    nlinarith [hn.1, hd.1, he.1, hc.1, hs]
  have hq79 : (s.network_velocity.score * (1/4) + s.holder_diversity.score * (1/5) +
      s.early_adopter_quality.score * (1/5) + s.liquidity_cascade.score * (1/4) +
      s.social_momentum.score * (1/10)) * 100 ≤ 79 := by
    nlinarith [hn.2, hd.2, he.2, hc.2, hs]
  rw [hfold, intTrunc, if_pos hq0]
  refine ⟨Int.floor_nonneg.mpr hq0, ?_⟩
  have h79 : (↑⌊(s.network_velocity.score * (1/4) + s.holder_diversity.score * (1/5) +
      s.early_adopter_quality.score * (1/5) + s.liquidity_cascade.score * (1/4) +
      s.social_momentum.score * (1/10)) * 100⌋ : ℚ) ≤ 79 :=
    le_trans (Int.floor_le _) hq79
  exact_mod_cast h79

theorem virality_score_bounds (cfg : CascadeConfig) (td : SafetyFilters.TokenData)
    (social_data : Option SocialData) (now : ℚ) :
    0 ≤ (predict_virality cfg td social_data now).virality_score ∧
    (predict_virality cfg td social_data now).virality_score ≤ 79 := by
  by_cases h : cfg.cascade_enabled
  · have hb := calculate_virality_bounds
      { network_velocity := _analyze_network_growth td now
        holder_diversity := _analyze_holder_diversity td
        early_adopter_quality := _analyze_early_adopters td
        liquidity_cascade := _analyze_liquidity_cascade td now
        social_momentum := _analyze_social_momentum social_data }
      (network_score_bounds td now) (diversity_score_bounds td)
      (early_score_bounds td) (cascade_score_bounds td now)
      (social_score_eq social_data)
    simpa [predict_virality, h] using hb
  · norm_num [predict_virality, h]

/-- C10: for every input the cascade virality score is at most 79 (the
per-signal maxima 0.8, 1.0, 0.7, 0.8, 0.5 under weights 0.25, 0.20, 0.20,
0.25, 0.10 cap the weighted sum at 0.79), the VIRAL-ALERT tier (score >= 90)
is never produced, and the viral probability never exceeds 0.79. -/
theorem virality_capped (cfg : CascadeConfig) (td : SafetyFilters.TokenData)
    (social_data : Option SocialData) (now : ℚ) :
    (predict_virality cfg td social_data now).virality_score ≤ 79 ∧
    (predict_virality cfg td social_data now).recommendation ≠ .viralAlert ∧
    (predict_virality cfg td social_data now).viral_probability ≤ 79/100 := by
  have hb := virality_score_bounds cfg td social_data now
  by_cases h : cfg.cascade_enabled
  · refine ⟨hb.2, ?_, ?_⟩
    · have hrec : (predict_virality cfg td social_data now).recommendation =
          _generate_recommendation ((predict_virality cfg td social_data now).virality_score) := by
        simp [predict_virality, h]
      rw [hrec]
      unfold _generate_recommendation
      have h90 : ¬ ((predict_virality cfg td social_data now).virality_score ≥ 90) := by
        have h79 := hb.2
        omega
      rw [if_neg h90]
      split_ifs <;> simp
    · have hprob : (predict_virality cfg td social_data now).viral_probability =
          (((predict_virality cfg td social_data now).virality_score : ℤ) : ℚ) / 100 := by
        simp [predict_virality, h]
      rw [hprob]
      have h79q : (((predict_virality cfg td social_data now).virality_score : ℤ) : ℚ) ≤ 79 := by
        exact_mod_cast hb.2
      linarith
  · refine ⟨hb.2, ?_, ?_⟩
    · simp [predict_virality, h]
    · norm_num [predict_virality, h]

end CascadeSentinel

/-- C9: the LEP weight table (0.25, 0.25, 0.20, 0.15, 0.15) and the Cascade
weight table (0.25, 0.20, 0.20, 0.25, 0.10) each sum to 1; LEP confidence
is clamped to [0, 1] for every signals input, and the cascade virality
score lies in [0, 100] for every input. -/
theorem weight_tables_and_ranges :
    (LEPPredictor.lepWeights.map Prod.snd).sum = 1 ∧
    (CascadeSentinel.cascadeWeights.map Prod.snd).sum = 1 ∧
    (∀ s : LEPPredictor.Signals,
      0 ≤ LEPPredictor._calculate_confidence s ∧
      LEPPredictor._calculate_confidence s ≤ 1) ∧
    (∀ (cfg : CascadeSentinel.CascadeConfig) (td : SafetyFilters.TokenData)
      (sd : Option CascadeSentinel.SocialData) (now : ℚ),
      0 ≤ (CascadeSentinel.predict_virality cfg td sd now).virality_score ∧
      (CascadeSentinel.predict_virality cfg td sd now).virality_score ≤ 100) := by
  refine ⟨?_, ?_, ?_, ?_⟩
  · norm_num [LEPPredictor.lepWeights]
  · norm_num [CascadeSentinel.cascadeWeights]
  · intro s
    unfold LEPPredictor._calculate_confidence
    constructor
    · exact le_min (le_max_right _ 0) (by norm_num)
    · exact min_le_right _ 1
  · intro cfg td sd now
    have hb := CascadeSentinel.virality_score_bounds cfg td sd now
    exact ⟨hb.1, le_trans hb.2 (by norm_num)⟩

namespace ModelTrainer

/-- One record of the performance history, as built by `record_trade`
(`win` is set there to `pnl_percent > 0`). -/
structure TradeRecord where
  win : Bool
  pnl_percent : ℚ
  safety_score : ℚ
  lep_confidence : ℚ
  virality_score : ℚ
  hold_time_minutes : ℚ
deriving DecidableEq

/-- The three scored fields whose thresholds `_analyze_patterns` learns. -/
inductive ScoreField where
  | safety_score
  | lep_confidence
  | virality_score
deriving DecidableEq

def getField (t : TradeRecord) : ScoreField → ℚ
  | .safety_score => t.safety_score
  | .lep_confidence => t.lep_confidence
  | .virality_score => t.virality_score

/-- `np.mean`: arithmetic mean (callers guard against empty input). -/
def npMean (values : List ℚ) : ℚ := values.sum / values.length

/-- `np.median`: sort ascending; middle element for odd length, mean of the
two middle elements for even length (callers guard against empty input). -/
def npMedian (values : List ℚ) : ℚ :=
  let s := List.insertionSort (fun a b => a ≤ b) values
  let n := s.length
  if n % 2 = 1 then s.getD (n / 2) 0
  else (s.getD (n / 2 - 1) 0 + s.getD (n / 2) 0) / 2

/-- `_find_optimal_threshold`: the median of the strictly positive values of
`field` among the winning trades; 0.0 when no such value exists. -/
def _find_optimal_threshold (winning_trades : List TradeRecord) (field : ScoreField) : ℚ :=
  let values := (winning_trades.filter fun t => getField t field > 0).map
    fun t => getField t field
  if values.isEmpty then 0 else npMedian values

/-- The `patterns` dict written by `_analyze_patterns`. -/
structure Patterns where
  total_trades : ℕ
  wins : ℕ
  losses : ℕ
  win_rate : ℚ
  avg_win : ℚ
  avg_loss : ℚ
  optimal_safety_score : ℚ
  optimal_lep_confidence : ℚ
  optimal_virality_score : ℚ
  avg_hold_time : ℚ
deriving DecidableEq

def patternThreshold (p : Patterns) : ScoreField → ℚ
  | .safety_score => p.optimal_safety_score
  | .lep_confidence => p.optimal_lep_confidence
  | .virality_score => p.optimal_virality_score

/-- `_analyze_patterns`: skip (return without saving) below 10 records or
with no winning trade, otherwise recompute the patterns dict. -/
def _analyze_patterns (history : List TradeRecord) : Option Patterns :=
  if history.length < 10 then none
  else if (history.filter fun t => t.win).length = 0 then none
  else some
    { total_trades := history.length
      wins := (history.filter fun t => t.win).length
      losses := (history.filter fun t => !t.win).length
      win_rate := if history.isEmpty then 0
        else ((history.filter fun t => t.win).length : ℚ) / history.length
      avg_win := npMean ((history.filter fun t => t.win).map fun t => t.pnl_percent)
      avg_loss := if (history.filter fun t => !t.win).isEmpty then 0
        else npMean ((history.filter fun t => !t.win).map fun t => t.pnl_percent)
      optimal_safety_score := _find_optimal_threshold (history.filter fun t => t.win) .safety_score
      optimal_lep_confidence := _find_optimal_threshold (history.filter fun t => t.win) .lep_confidence
      optimal_virality_score := _find_optimal_threshold (history.filter fun t => t.win) .virality_score
      avg_hold_time := npMean ((history.filter fun t => t.win).map fun t => t.hold_time_minutes) }

theorem filter_map_comm (l : List TradeRecord) (f : ScoreField) :
    ((l.filter fun t => getField t f > 0).map fun t => getField t f) =
      ((l.map fun t => getField t f).filter fun v => v > 0) := by
  induction l with
  | nil => rfl
  | cons a t ih =>
      by_cases h : getField a f > 0 <;> simp [List.filter_cons, h, ih]

def c7loss : TradeRecord :=
  { win := false, pnl_percent := -5, safety_score := 70, lep_confidence := 1/2
    virality_score := 50, hold_time_minutes := 10 }

def c7winA : TradeRecord :=
  { win := true, pnl_percent := 10, safety_score := 0, lep_confidence := 1/2
    virality_score := 50, hold_time_minutes := 10 }

def c7winB : TradeRecord :=
  { win := true, pnl_percent := 20, safety_score := 50, lep_confidence := 7/10
    virality_score := 60, hold_time_minutes := 20 }

/-- A 10-record history whose two winning trades have safety scores 0 and
50: the recorded 0 is excluded by the positivity filter of
`_find_optimal_threshold`. -/
def c7history : List TradeRecord :=
  [c7winA, c7winB, c7loss, c7loss, c7loss, c7loss, c7loss, c7loss, c7loss, c7loss]

/-- C7 counterexample: on `c7history` the learned safety threshold is 50,
the median of the positive values only, while the median of the
safety-score values among all winning trades is 25 — so "threshold = median
of that field's values among the winning trades" is false. -/
theorem analyze_patterns_median_cex :
    Option.map (fun p => p.optimal_safety_score) (_analyze_patterns c7history) = some 50 ∧
    npMedian ((c7history.filter fun t => t.win).map fun t => getField t .safety_score) = 25 ∧
    (50 : ℚ) ≠ 25 := by
  refine ⟨?_, ?_, by norm_num⟩
  · norm_num [_analyze_patterns, c7history, c7winA, c7winB, c7loss,
      _find_optimal_threshold, getField, npMedian, npMean, List.filter_cons,
      List.insertionSort, List.orderedInsert, List.getD]
  · norm_num [c7history, c7winA, c7winB, c7loss, getField, npMedian,
      List.filter_cons, List.insertionSort, List.orderedInsert, List.getD]

/-- C7 amended: pattern recomputation is skipped below 10 records (and when
there is no winning trade); whenever it produces a patterns dict, the
history holds at least 10 records, at least one win exists, and the learned
threshold of each scored field is the median of that field's strictly
positive values among the winning trades only (0.0 when no winning trade
has a positive value for the field). -/
theorem analyze_patterns_spec (history : List TradeRecord) :
    (history.length < 10 → _analyze_patterns history = none) ∧
    (∀ p, _analyze_patterns history = some p →
      10 ≤ history.length ∧
      (history.filter fun t => t.win) ≠ [] ∧
      ∀ f : ScoreField,
        patternThreshold p f =
          (let pos := ((history.filter fun t => t.win).map fun t => getField t f).filter
              fun v => v > 0
           if pos.isEmpty then 0 else npMedian pos)) := by
  constructor
  · intro h
    simp [_analyze_patterns, h]
  · intro p hp
    unfold _analyze_patterns at hp
    by_cases h1 : history.length < 10
    · rw [if_pos h1] at hp
      exact Option.noConfusion hp
    · rw [if_neg h1] at hp
      by_cases h2 : (history.filter fun t => t.win).length = 0
      · rw [if_pos h2] at hp
        exact Option.noConfusion hp
      · rw [if_neg h2] at hp
        injection hp with hp'
        refine ⟨not_lt.mp h1, ?_, ?_⟩
        · intro hnil
          exact h2 (by simp [hnil])
        · intro f
          rw [← hp']
          cases f <;>
            simp only [patternThreshold, _find_optimal_threshold, filter_map_comm]

theorem analyze_patterns_spec_witness :
    _analyze_patterns [] = none :=
  (analyze_patterns_spec []).1 (by simp)

end ModelTrainer
